import Mathlib

/-!
Verification of the Elmdale freeze-monitor Lambda (`src/lambda_trigger.py`).

The embedding models temperatures as rationals, hourly/daily forecast
entries as structures with optional temperature fields (an absent JSON key
and an explicit null both surface as `none`, since every use in the handler
treats them alike: `dict.get` returns `None`, and direct indexing or
formatting of a missing value raises, and the outer
try/except turns either into a 500 result), and the external collaborators
(DynamoDB state table, SES e-mail, SNS SMS) as an effect trace recorded in
an `Outcome`, with injectable fault flags standing for the exceptions each
collaborator may raise.
-/

set_option maxHeartbeats 1000000

namespace ElmdaleWeather

/-- One entry of the hourly forecast: unix timestamp and optional temperature. -/
structure HourlyPoint where
  dt : Int
  temp : Option Rat
deriving DecidableEq, Repr

/-- One entry of the daily forecast: unix timestamp and optional min/max temperatures. -/
structure DailyPoint where
  dt : Int
  temp_min : Option Rat
  temp_max : Option Rat
deriving DecidableEq, Repr

/-- Embedding of `find_freeze_hours` (src/lambda_trigger.py lines 46-54):
take the leading `hours_ahead` slice and keep entries whose temperature is
present and at or below the threshold. -/
def find_freeze_hours (hourly : List HourlyPoint) (hours_ahead : Nat)
    (threshold_f : Rat) : List HourlyPoint :=
  let upcoming := hourly.take hours_ahead
  upcoming.filter fun h =>
    match h.temp with
    | none => false
    | some x => decide (x ≤ threshold_f)

/-- Embedding of `find_warm_clear_days` (src/lambda_trigger.py lines 57-72):
false on an empty daily list, otherwise true when every entry of the leading
`warm_clear_days` slice has a present minimum at or above the warm threshold
(the loop returns False on the first missing or below-threshold minimum). -/
def find_warm_clear_days (daily : List DailyPoint) (warm_clear_days : Nat)
    (warm_threshold_f : Rat) : Bool :=
  if daily.isEmpty then false
  else
    (daily.take warm_clear_days).all fun d =>
      match d.temp_min with
      | none => false
      | some m => decide (warm_threshold_f ≤ m)

/-- Modelled from the spec (section 4.1): `evaluate_freeze` keeps, among the
first `hours_ahead` entries, those whose temperature is present and at or
below the freeze threshold, preserving order. -/
def evaluate_freeze (hourly : List HourlyPoint) (hours_ahead : Nat)
    (threshold_f : Rat) : List HourlyPoint :=
  (hourly.take hours_ahead).filter fun h => (h.temp.map (fun x => decide (x ≤ threshold_f))).getD false

/-- Modelled from the spec (section 4.2): the classifier. Freeze hours
dominate; otherwise a confirmed warm-clear window gives WARM; otherwise the
conservative default COLD. -/
def classify (freeze_hours : List HourlyPoint) (warm_clear_ok : Bool) : String :=
  if ¬freeze_hours.isEmpty then "COLD"
  else if warm_clear_ok then "WARM"
  else "COLD"

/-- The Lambda event, as far as the handler inspects it: it may fail to be a
dict, be a dict with no "mode" key, or carry a mode string (a non-string mode
value behaves like a string matching none of the recognized ones, so a string
not equal to any recognized mode also covers that case). -/
inductive WeatherEvent where
  | notDict : WeatherEvent
  | dictNoMode : WeatherEvent
  | dictMode : String → WeatherEvent
deriving DecidableEq, Repr

/-- Embedding of lines 370-372: `mode = event.get("mode", "NORMAL")` with a
non-dict event falling back to "NORMAL". -/
def modeOf : WeatherEvent → String
  | .notDict => "NORMAL"
  | .dictNoMode => "NORMAL"
  | .dictMode m => m

/-- Configuration read from the environment at the top of `lambda_handler`
(lines 363-368), plus whether `SNS_TOPIC_ARN` is configured (the SMS helpers
skip publishing when it is absent, lines 272-276). -/
structure Env where
  hours_ahead : Nat
  threshold_f : Rat
  warm_clear_days : Nat
  warm_threshold_f : Rat
  snsConfigured : Bool
deriving DecidableEq, Repr

/-- Fault flags standing for the exceptions the external collaborators may
raise: DynamoDB `get_item`, DynamoDB `put_item`, SES `send_email`, SNS
`publish`. A raised exception propagates to the outer try/except of
`lambda_handler`, which returns a 500 result; effects performed before the
raise are kept. -/
structure Faults where
  getStateFail : Bool
  putStateFail : Bool
  sesFail : Bool
  snsFail : Bool
deriving DecidableEq, Repr

/-- All collaborators succeed. -/
def noFaults : Faults := ⟨false, false, false, false⟩

/-- Inputs of one invocation: the event, the forecast returned by the weather
fetch, the mode currently persisted in the state table (`none` when no record
exists), and the wall-clock time `time.time()` used by the simulated modes. -/
structure Invocation where
  event : WeatherEvent
  hourly : List HourlyPoint
  daily : List DailyPoint
  stored : Option String
  now : Int
deriving DecidableEq, Repr

/-- An e-mail handed to SES, abstracted to the structured data that the
formatting helpers interpolate into their fixed templates. -/
inductive Email where
  | freeze : List HourlyPoint → Rat → Nat → Rat → Email
  | warmOk : Nat → Rat → Nat → Rat → Email
  | status : Option String → String → Email
deriving DecidableEq, Repr

/-- A message published to SNS, abstracted to its structured data; freeze SMS
carries the start and end timestamps of the reported freeze period. -/
inductive Sms where
  | freeze : Rat → Nat → Int → Int → Sms
  | warmOk : Nat → Rat → Sms
  | test : Sms
deriving DecidableEq, Repr

/-- Return value of the handler: a 200 response with its body string, or the
500 response produced by the outer except clause. -/
inductive HandlerResult where
  | ok : String → HandlerResult
  | failure : HandlerResult
deriving DecidableEq, Repr

/-- Observable outcome of one invocation: the result, the state-table record
after the invocation, and the e-mails and SMS messages sent. -/
structure Outcome where
  result : HandlerResult
  stored : Option String
  emails : List Email
  sms : List Sms
deriving DecidableEq, Repr

/-- Minimum of the present temperatures of a list of hourly entries, the
model of `min(h["temp"] for h in freeze_hours)`. -/
def minTempOf (hs : List HourlyPoint) : Option Rat :=
  match hs.filterMap (fun h => h.temp) with
  | [] => none
  | t :: ts => some (ts.foldl min t)

/-- Model of `send_warm_ok_email` followed by `send_warm_ok_sms` (lines
551-552 and 594-595): one e-mail, then one SMS when SNS is configured. -/
def warmAlert (faults : Faults) (env : Env) (stored : Option String)
    (body : String) : Outcome :=
  if faults.sesFail then ⟨.failure, stored, [], []⟩
  else
    let es := [Email.warmOk env.warm_clear_days env.warm_threshold_f
      env.hours_ahead env.threshold_f]
    if env.snsConfigured then
      if faults.snsFail then ⟨.failure, stored, es, []⟩
      else ⟨.ok body, stored, es, [Sms.warmOk env.warm_clear_days env.warm_threshold_f]⟩
    else ⟨.ok body, stored, es, []⟩

/-- Model of `send_freeze_email` followed by `send_freeze_sms`: one e-mail
built from the given hour list and minimum temperature, then one SMS when SNS
is configured. -/
def freezeAlert (faults : Faults) (env : Env) (hours : List HourlyPoint)
    (minTemp : Rat) (startDt endDt : Int) (stored : Option String)
    (body : String) : Outcome :=
  if faults.sesFail then ⟨.failure, stored, [], []⟩
  else
    let es := [Email.freeze hours minTemp env.hours_ahead env.threshold_f]
    if env.snsConfigured then
      if faults.snsFail then ⟨.failure, stored, es, []⟩
      else ⟨.ok body, stored, es, [Sms.freeze minTemp env.hours_ahead startDt endDt]⟩
    else ⟨.ok body, stored, es, []⟩

/-- Model of the COLD notification block the NORMAL path runs twice (lines
530-547 and 568-585). With no computed freeze hours it builds the synthetic
one-element window from `hourly[0]`; indexing an empty list or formatting a
missing temperature raises, which surfaces as a 500 with no e-mail sent. -/
def coldAlert (faults : Faults) (env : Env) (hourly freeze_hours : List HourlyPoint)
    (stored : Option String) (body : String) : Outcome :=
  match freeze_hours with
  | [] =>
    match hourly with
    | [] => ⟨.failure, stored, [], []⟩
    | h0 :: _ =>
      match h0.temp with
      | none => ⟨.failure, stored, [], []⟩
      | some t => freezeAlert faults env [⟨h0.dt, some t⟩] t h0.dt h0.dt stored body
  | h :: hs =>
    match minTempOf (h :: hs) with
    | none => ⟨.failure, stored, [], []⟩
    | some m => freezeAlert faults env (h :: hs) m h.dt (hs.getLastD h).dt stored body

/-- The forecast-derived state of lines 406-418: freeze hours first, then the
warm-clear check guarded by `not freeze_hours and daily`, defaulting to COLD. -/
def currentStateOf (env : Env) (hourly : List HourlyPoint)
    (daily : List DailyPoint) : String :=
  let fh := find_freeze_hours hourly env.hours_ahead env.threshold_f
  let warm_ok :=
    if fh.isEmpty then
      if daily.isEmpty then false
      else find_warm_clear_days daily env.warm_clear_days env.warm_threshold_f
    else false
  if warm_ok then "WARM" else "COLD"

/-- The NORMAL-mode FSM of lines 525-599: first run writes and alerts, an
unchanged state is a no-op, and a change writes then alerts. The write
precedes the notification in both writing branches. -/
def normalFSM (faults : Faults) (env : Env) (hourly : List HourlyPoint)
    (daily : List DailyPoint) (stored : Option String) : Outcome :=
  let fh := find_freeze_hours hourly env.hours_ahead env.threshold_f
  let cs := currentStateOf env hourly daily
  match stored with
  | none =>
    if faults.putStateFail then ⟨.failure, none, [], []⟩
    else if cs = "COLD" then
      coldAlert faults env hourly fh (some cs)
        "Initial state set to COLD and freeze-type alert sent."
    else
      warmAlert faults env (some cs)
        "Initial state set to WARM and warm-type alert sent."
  | some last =>
    if cs = last then
      ⟨.ok ("State unchanged (" ++ cs ++ "); no alert."), some last, [], []⟩
    else if faults.putStateFail then ⟨.failure, some last, [], []⟩
    else if cs = "COLD" then
      coldAlert faults env hourly fh (some cs) "Transition to COLD; freeze alert sent."
    else
      warmAlert faults env (some cs) "Transition to WARM; warm-ok alert sent."

/-- The mock hourly list built by the TEST_COLD branch (lines 455-462):
`hours_ahead` entries whose temperatures sit strictly below the freeze
threshold and decrease by half a degree per hour. -/
def mockColdHourly (env : Env) (now : Int) : List HourlyPoint :=
  (List.range env.hours_ahead).map fun i =>
    ⟨now + i * 3600, some (env.threshold_f - 2 - i * (1 / 2 : Rat))⟩

/-- The TEST_COLD branch (lines 453-492): re-runs `find_freeze_hours` on the
mock data and sends one freeze e-mail without touching persisted state; no
SMS is sent on this path. With `hours_ahead = 0` the mock list is empty and
`mock_hourly[0]` raises, surfacing as a 500. -/
def testColdBranch (faults : Faults) (env : Env) (inv : Invocation) : Outcome :=
  match find_freeze_hours (mockColdHourly env inv.now) env.hours_ahead env.threshold_f with
  | h :: hs =>
    match minTempOf (h :: hs) with
    | none => ⟨.failure, inv.stored, [], []⟩
    | some m =>
      if faults.sesFail then ⟨.failure, inv.stored, [], []⟩
      else
        ⟨.ok "TEST_COLD: cold alert email sent with simulated freeze conditions; FSM state unchanged.",
          inv.stored, [Email.freeze (h :: hs) m env.hours_ahead env.threshold_f], []⟩
  | [] =>
    match mockColdHourly env inv.now with
    | [] => ⟨.failure, inv.stored, [], []⟩
    | m0 :: _ =>
      match m0.temp with
      | none => ⟨.failure, inv.stored, [], []⟩
      | some t =>
        if faults.sesFail then ⟨.failure, inv.stored, [], []⟩
        else
          ⟨.ok "TEST_COLD: cold alert email sent with simulated freeze conditions; FSM state unchanged.",
            inv.stored, [Email.freeze [m0] t env.hours_ahead env.threshold_f], []⟩

/-- The daily-summary lines of `send_status_email` (lines 213-230) format
`temp.min` and `temp.max` of each of the first ten daily entries with `:.1f`
unconditionally, so a missing minimum or maximum among them raises a
TypeError while the body is being built, before the e-mail reaches SES. This
predicate is that crash condition; the hourly summary and the date line are
guarded in the source and cannot raise. -/
def statusEmailCrashes (daily : List DailyPoint) : Bool :=
  (daily.take 10).any fun d => d.temp_min.isNone || d.temp_max.isNone

/-- Embedding of `lambda_handler` (lines 362-603) as a function from the
inputs of the invocation and the fault flags of the collaborators to the observable
outcome. The weather fetch is taken as already performed (its hourly and
daily lists are inputs); every other effect is recorded in the outcome. In
both TEST branches the status e-mail body is built first, so its formatting
crash on a malformed daily entry fails the invocation before any send. -/
def lambda_handler (faults : Faults) (env : Env) (inv : Invocation) : Outcome :=
  if inv.hourly.isEmpty then
    if modeOf inv.event = "TEST" then
      if faults.getStateFail then ⟨.failure, inv.stored, [], []⟩
      else if statusEmailCrashes inv.daily then ⟨.failure, inv.stored, [], []⟩
      else if faults.sesFail then ⟨.failure, inv.stored, [], []⟩
      else
        let es := [Email.status inv.stored "UNKNOWN (no hourly data)"]
        if env.snsConfigured then
          if faults.snsFail then ⟨.failure, inv.stored, es, []⟩
          else ⟨.ok "TEST: sent status email + test SMS with limited data.",
            inv.stored, es, [Sms.test]⟩
        else ⟨.ok "TEST: sent status email + test SMS with limited data.",
          inv.stored, es, []⟩
    else if modeOf inv.event = "TEST_SMS_ONLY" then
      if env.snsConfigured then
        if faults.snsFail then ⟨.failure, inv.stored, [], []⟩
        else ⟨.ok "TEST_SMS_ONLY: test SMS sent (no hourly data).", inv.stored, [], [Sms.test]⟩
      else ⟨.ok "TEST_SMS_ONLY: test SMS sent (no hourly data).", inv.stored, [], []⟩
    else ⟨.ok "No hourly data.", inv.stored, [], []⟩
  else
    if faults.getStateFail then ⟨.failure, inv.stored, [], []⟩
    else
      let cs := currentStateOf env inv.hourly inv.daily
      if modeOf inv.event = "TEST" then
        if statusEmailCrashes inv.daily then ⟨.failure, inv.stored, [], []⟩
        else if faults.sesFail then ⟨.failure, inv.stored, [], []⟩
        else
          let es := [Email.status inv.stored cs]
          if env.snsConfigured then
            if faults.snsFail then ⟨.failure, inv.stored, es, []⟩
            else ⟨.ok "TEST: status email + test SMS sent; FSM state unchanged.",
              inv.stored, es, [Sms.test]⟩
          else ⟨.ok "TEST: status email + test SMS sent; FSM state unchanged.",
            inv.stored, es, []⟩
      else if modeOf inv.event = "TEST_SMS_ONLY" then
        if env.snsConfigured then
          if faults.snsFail then ⟨.failure, inv.stored, [], []⟩
          else ⟨.ok "TEST_SMS_ONLY: test SMS sent.", inv.stored, [], [Sms.test]⟩
        else ⟨.ok "TEST_SMS_ONLY: test SMS sent.", inv.stored, [], []⟩
      else if modeOf inv.event = "TEST_COLD" then
        testColdBranch faults env inv
      else if modeOf inv.event = "TEST_WARM" then
        if faults.sesFail then ⟨.failure, inv.stored, [], []⟩
        else
          ⟨.ok "TEST_WARM: warm alert email sent with simulated warm conditions; FSM state unchanged.",
            inv.stored,
            [Email.warmOk env.warm_clear_days env.warm_threshold_f env.hours_ahead env.threshold_f],
            []⟩
      else normalFSM faults env inv.hourly inv.daily inv.stored

/-! Helper lemmas -/

/-- An empty daily list always fails the warm-clear check. -/
theorem find_warm_clear_days_empty (daily : List DailyPoint) (n : Nat) (t : Rat)
    (h : daily.isEmpty) : find_warm_clear_days daily n t = false := by
  unfold find_warm_clear_days
  rw [if_pos h]

/-- With collaborators succeeding, a warm alert is one e-mail, at most one
SMS, the given body as result, and an untouched state value. -/
theorem warmAlert_noFaults (env : Env) (st : Option String) (b : String) :
    (warmAlert noFaults env st b).result = .ok b
    ∧ (warmAlert noFaults env st b).emails.length = 1
    ∧ (warmAlert noFaults env st b).sms.length ≤ 1
    ∧ (warmAlert noFaults env st b).stored = st := by
  unfold warmAlert noFaults
  cases h : env.snsConfigured <;> simp [h]

/-- With collaborators succeeding, a freeze alert is one e-mail, at most one
SMS, the given body as result, and an untouched state value. -/
theorem freezeAlert_noFaults (env : Env) (hours : List HourlyPoint) (m : Rat)
    (s e : Int) (st : Option String) (b : String) :
    (freezeAlert noFaults env hours m s e st b).result = .ok b
    ∧ (freezeAlert noFaults env hours m s e st b).emails.length = 1
    ∧ (freezeAlert noFaults env hours m s e st b).sms.length ≤ 1
    ∧ (freezeAlert noFaults env hours m s e st b).stored = st := by
  unfold freezeAlert noFaults
  cases h : env.snsConfigured <;> simp [h]

/-- The COLD notification block never moves the state value it is given,
sends at most one e-mail and one SMS, and sends at least one e-mail whenever
it does not fail. -/
theorem coldAlert_noFaults (env : Env) (hourly fh : List HourlyPoint)
    (st : Option String) (b : String) :
    (coldAlert noFaults env hourly fh st b).stored = st
    ∧ (coldAlert noFaults env hourly fh st b).emails.length ≤ 1
    ∧ (coldAlert noFaults env hourly fh st b).sms.length ≤ 1
    ∧ ((coldAlert noFaults env hourly fh st b).result ≠ .failure →
        (coldAlert noFaults env hourly fh st b).emails ≠ []) := by
  cases fh with
  | nil =>
    cases hourly with
    | nil => simp [coldAlert]
    | cons h0 rest =>
      cases htemp : h0.temp with
      | none => simp [coldAlert, htemp]
      | some t =>
        have hf := freezeAlert_noFaults env [⟨h0.dt, some t⟩] t h0.dt h0.dt st b
        simp only [coldAlert, htemp]
        refine ⟨hf.2.2.2, le_of_eq hf.2.1, hf.2.2.1, fun _ => ?_⟩
        intro hnil
        have := hf.2.1
        rw [hnil] at this
        simp at this
  | cons h hs =>
    cases hmin : minTempOf (h :: hs) with
    | none => simp [coldAlert, hmin]
    | some m =>
      have hf := freezeAlert_noFaults env (h :: hs) m h.dt (hs.getLastD h).dt st b
      simp only [coldAlert, hmin]
      refine ⟨hf.2.2.2, le_of_eq hf.2.1, hf.2.2.1, fun _ => ?_⟩
      intro hnil
      have := hf.2.1
      rw [hnil] at this
      simp at this

/-- A NORMAL-mode invocation with non-empty hourly data and a readable state
record runs exactly the FSM block. -/
theorem lambda_handler_normal_eq (faults : Faults) (env : Env) (inv : Invocation)
    (hmode : modeOf inv.event = "NORMAL") (hgs : faults.getStateFail = false)
    (hne : inv.hourly ≠ []) :
    lambda_handler faults env inv = normalFSM faults env inv.hourly inv.daily inv.stored := by
  have h1 : inv.hourly.isEmpty = false := by simpa [List.isEmpty_iff] using hne
  simp [lambda_handler, hmode, h1, hgs]

/-- Fault-free non-failing runs of the FSM block: an e-mail goes out exactly
when the stored record differs from (or lacks) the classified state, and at
most one e-mail and one SMS are ever sent. -/
theorem normalFSM_noFaults_spec (env : Env) (hourly : List HourlyPoint)
    (daily : List DailyPoint) (stored : Option String)
    (hok : (normalFSM noFaults env hourly daily stored).result ≠ .failure) :
    ((normalFSM noFaults env hourly daily stored).emails ≠ [] ↔
      stored ≠ some (currentStateOf env hourly daily))
    ∧ (normalFSM noFaults env hourly daily stored).emails.length ≤ 1
    ∧ (normalFSM noFaults env hourly daily stored).sms.length ≤ 1 := by
  cases stored with
  | none =>
    by_cases hcold : currentStateOf env hourly daily = "COLD"
    · have heq : normalFSM noFaults env hourly daily none =
          coldAlert noFaults env hourly
            (find_freeze_hours hourly env.hours_ahead env.threshold_f)
            (some (currentStateOf env hourly daily))
            "Initial state set to COLD and freeze-type alert sent." := by
        simp [normalFSM, hcold, noFaults]
      rw [heq] at hok ⊢
      obtain ⟨-, hlen, hsms, hmail⟩ := coldAlert_noFaults env hourly
        (find_freeze_hours hourly env.hours_ahead env.threshold_f)
        (some (currentStateOf env hourly daily))
        "Initial state set to COLD and freeze-type alert sent."
      exact ⟨⟨fun _ => by simp, fun _ => hmail hok⟩, hlen, hsms⟩
    · have heq : normalFSM noFaults env hourly daily none =
          warmAlert noFaults env (some (currentStateOf env hourly daily))
            "Initial state set to WARM and warm-type alert sent." := by
        simp [normalFSM, hcold, noFaults]
      rw [heq] at hok ⊢
      obtain ⟨-, hlen, hsms, -⟩ := warmAlert_noFaults env
        (some (currentStateOf env hourly daily))
        "Initial state set to WARM and warm-type alert sent."
      refine ⟨⟨fun _ => by simp, fun _ => ?_⟩, le_of_eq hlen, hsms⟩
      intro hnil
      rw [hnil] at hlen
      simp at hlen
  | some last =>
    by_cases hsame : currentStateOf env hourly daily = last
    · have heq : normalFSM noFaults env hourly daily (some last) =
          ⟨.ok ("State unchanged (" ++ last ++ "); no alert."), some last, [], []⟩ := by
        simp [normalFSM, hsame]
      rw [heq]
      simp [hsame]
    · have hrhs : (some last : Option String) ≠
          some (currentStateOf env hourly daily) := by
        simpa using fun hc => hsame hc.symm
      by_cases hcold : currentStateOf env hourly daily = "COLD"
      · have heq : normalFSM noFaults env hourly daily (some last) =
            coldAlert noFaults env hourly
              (find_freeze_hours hourly env.hours_ahead env.threshold_f)
              (some (currentStateOf env hourly daily))
              "Transition to COLD; freeze alert sent." := by
          have hsame2 : ¬("COLD" = last) := by rw [hcold] at hsame; exact hsame
          simp [normalFSM, noFaults, hcold, hsame, hsame2]
        rw [heq] at hok ⊢
        obtain ⟨-, hlen, hsms, hmail⟩ := coldAlert_noFaults env hourly
          (find_freeze_hours hourly env.hours_ahead env.threshold_f)
          (some (currentStateOf env hourly daily))
          "Transition to COLD; freeze alert sent."
        exact ⟨⟨fun _ => hrhs, fun _ => hmail hok⟩, hlen, hsms⟩
      · have heq : normalFSM noFaults env hourly daily (some last) =
            warmAlert noFaults env (some (currentStateOf env hourly daily))
              "Transition to WARM; warm-ok alert sent." := by
          simp [normalFSM, noFaults, hcold, hsame]
        rw [heq] at hok ⊢
        obtain ⟨-, hlen, hsms, -⟩ := warmAlert_noFaults env
          (some (currentStateOf env hourly daily))
          "Transition to WARM; warm-ok alert sent."
        refine ⟨⟨fun _ => hrhs, fun _ => ?_⟩, le_of_eq hlen, hsms⟩
        intro hnil
        rw [hnil] at hlen
        simp at hlen

/-- Default deployment configuration: 12-hour lookahead, 32 degree freeze
threshold, 2-day warm-clear window at 35 degrees, SNS topic configured. -/
def demoEnv : Env := ⟨12, 32, 2, 35, true⟩

/-! Claim theorems -/

/-- C3: `find_freeze_hours` equals the `evaluate_freeze` of the spec (keep, among
the first `hours_ahead` entries, exactly those with a present temperature at
or below the threshold), its output is an order-preserving subselection of
the window, a missing temperature is never included, entries beyond index
`hours_ahead - 1` are never examined (the result depends only on the taken
prefix), and the empty input yields the empty result. -/
theorem C3_find_freeze_hours_spec (hourly : List HourlyPoint) (n : Nat) (t : Rat) :
    find_freeze_hours hourly n t = evaluate_freeze hourly n t
    ∧ (find_freeze_hours hourly n t).Sublist (hourly.take n)
    ∧ (∀ h ∈ find_freeze_hours hourly n t, ∃ x, h.temp = some x ∧ x ≤ t)
    ∧ (∀ hourly₂, hourly.take n = hourly₂.take n →
        find_freeze_hours hourly n t = find_freeze_hours hourly₂ n t)
    ∧ find_freeze_hours ([] : List HourlyPoint) n t = [] := by
  refine ⟨?_, ?_, ?_, ?_, by simp [find_freeze_hours]⟩
  · unfold find_freeze_hours evaluate_freeze
    apply List.filter_congr
    intro h _
    cases h.temp <;> rfl
  · unfold find_freeze_hours
    exact List.filter_sublist _
  · intro h hmem
    unfold find_freeze_hours at hmem
    simp only [List.mem_filter] at hmem
    obtain ⟨-, hcond⟩ := hmem
    cases htemp : h.temp with
    | none => rw [htemp] at hcond; simp at hcond
    | some x =>
      rw [htemp] at hcond
      exact ⟨x, rfl, by simpa using hcond⟩
  · intro hourly₂ hagree
    unfold find_freeze_hours
    rw [hagree]

/-- C3 witness: the locality and filtering conjuncts applied at a concrete
input, a two-entry window with one freezing hour, one warm hour, one missing
temperature inside the window and a differing entry beyond it. -/
theorem C3_find_freeze_hours_spec_witness :
    find_freeze_hours [⟨0, some 30⟩, ⟨1, some 40⟩, ⟨2, some 10⟩] 2 32 =
      find_freeze_hours [⟨0, some 30⟩, ⟨1, some 40⟩, ⟨2, none⟩] 2 32
    ∧ find_freeze_hours [⟨0, some 30⟩, ⟨1, none⟩] 2 32 = [⟨0, some 30⟩] := by
  constructor
  · exact (C3_find_freeze_hours_spec [⟨0, some 30⟩, ⟨1, some 40⟩, ⟨2, some 10⟩] 2 32).2.2.2.1
      [⟨0, some 30⟩, ⟨1, some 40⟩, ⟨2, none⟩] (by decide)
  · have h := (C3_find_freeze_hours_spec [⟨0, some 30⟩, ⟨1, none⟩] 2 32).1
    rw [h]; decide

/-- C4: `find_warm_clear_days` is false on an empty daily list, and on a
non-empty list it is true exactly when every entry of the leading
`warm_clear_days` slice has a present minimum temperature at or above the
warm threshold (boundary inclusive); when fewer entries exist only the
available ones are evaluated, since the slice truncates. -/
theorem C4_find_warm_clear_days_spec (daily : List DailyPoint) (n : Nat) (t : Rat) :
    find_warm_clear_days [] n t = false
    ∧ (daily ≠ [] →
        (find_warm_clear_days daily n t = true ↔
          ∀ d ∈ daily.take n, ∃ m, d.temp_min = some m ∧ t ≤ m)) := by
  refine ⟨rfl, ?_⟩
  intro hne
  unfold find_warm_clear_days
  rw [if_neg (by simpa using hne)]
  rw [List.all_eq_true]
  constructor
  · intro hall d hd
    have hcond := hall d hd
    cases hm : d.temp_min with
    | none => rw [hm] at hcond; simp at hcond
    | some m =>
      rw [hm] at hcond
      exact ⟨m, rfl, by simpa using hcond⟩
  · intro hall d hd
    obtain ⟨m, hm, hle⟩ := hall d hd
    rw [hm]
    simpa using hle

/-- C4 witness: the worked example of the spec, `[min 35, min 36]` with two days
at threshold 35 passes, and lowering one minimum to 34 fails. -/
theorem C4_find_warm_clear_days_spec_witness :
    find_warm_clear_days [⟨0, some 35, some 50⟩, ⟨1, some 36, some 51⟩] 2 35 = true
    ∧ find_warm_clear_days [⟨0, some 34, some 50⟩, ⟨1, some 36, some 51⟩] 2 35 = false := by
  constructor
  · refine ((C4_find_warm_clear_days_spec
      [⟨0, some 35, some 50⟩, ⟨1, some 36, some 51⟩] 2 35).2 (by decide)).mpr ?_
    intro d hd
    simp only [List.take, List.mem_cons, List.not_mem_nil, or_false] at hd
    rcases hd with rfl | rfl
    · exact ⟨35, rfl, by norm_num⟩
    · exact ⟨36, rfl, by norm_num⟩
  · decide

/-- C2: the state the handler derives from the forecast equals the
classifier applied to the freeze-hour list and the warm-clear check, and in
particular any non-empty freeze-hour list forces COLD regardless of the
warm-clear result. -/
theorem C2_classifier_agrees (env : Env) (hourly : List HourlyPoint)
    (daily : List DailyPoint) :
    currentStateOf env hourly daily =
      classify (find_freeze_hours hourly env.hours_ahead env.threshold_f)
        (find_warm_clear_days daily env.warm_clear_days env.warm_threshold_f)
    ∧ (find_freeze_hours hourly env.hours_ahead env.threshold_f ≠ [] →
        currentStateOf env hourly daily = "COLD") := by
  have hmain : currentStateOf env hourly daily =
      classify (find_freeze_hours hourly env.hours_ahead env.threshold_f)
        (find_warm_clear_days daily env.warm_clear_days env.warm_threshold_f) := by
    unfold currentStateOf classify
    cases hfh : (find_freeze_hours hourly env.hours_ahead env.threshold_f).isEmpty
    · simp [hfh]
    · cases hd : daily.isEmpty
      · simp [hfh, hd]
      · simp [hfh, hd, find_warm_clear_days_empty daily _ _ hd]
  refine ⟨hmain, fun hne => ?_⟩
  rw [hmain]
  unfold classify
  rw [if_pos (by simpa [List.isEmpty_iff] using hne)]

/-- C2 witness: the classifier agreement applied at a concrete forecast where
a freeze hour exists while the warm-clear check also passes; freeze wins. -/
theorem C2_classifier_agrees_witness :
    currentStateOf ⟨12, 32, 2, 35, true⟩ [⟨0, some 30⟩] [⟨0, some 40, some 60⟩] = "COLD" :=
  (C2_classifier_agrees ⟨12, 32, 2, 35, true⟩ [⟨0, some 30⟩]
    [⟨0, some 40, some 60⟩]).2 (by decide)

/-- C1 counterexample: a NORMAL invocation whose one hourly entry has no
temperature, with WARM persisted; the classified mode (COLD) differs from the
persisted mode and the state is written, yet no notification at all is
emitted, because the synthetic freeze window crashes on the missing
temperature. The emission-iff-transition claim fails as stated. -/
theorem C1_counterexample :
    (Invocation.mk (.dictMode "NORMAL") [⟨0, none⟩] [] (some "WARM") 0).stored ≠
      some (currentStateOf demoEnv [⟨0, none⟩] [])
    ∧ (lambda_handler noFaults demoEnv
        ⟨.dictMode "NORMAL", [⟨0, none⟩], [], some "WARM", 0⟩).stored ≠ some "WARM"
    ∧ (lambda_handler noFaults demoEnv
        ⟨.dictMode "NORMAL", [⟨0, none⟩], [], some "WARM", 0⟩).emails = []
    ∧ (lambda_handler noFaults demoEnv
        ⟨.dictMode "NORMAL", [⟨0, none⟩], [], some "WARM", 0⟩).sms = [] := by
  decide

/-- C1 (amended): in a fault-free NORMAL invocation with non-empty hourly
data that does not fail, a notification is emitted if and only if the
classified mode differs from the persisted mode or the persisted mode is
absent, and every invocation emits at most one e-mail and at most one SMS. -/
theorem C1_notification_iff_transition (env : Env) (inv : Invocation)
    (hmode : modeOf inv.event = "NORMAL") (hne : inv.hourly ≠ [])
    (hok : (lambda_handler noFaults env inv).result ≠ .failure) :
    ((lambda_handler noFaults env inv).emails ≠ [] ↔
      inv.stored ≠ some (currentStateOf env inv.hourly inv.daily))
    ∧ (lambda_handler noFaults env inv).emails.length ≤ 1
    ∧ (lambda_handler noFaults env inv).sms.length ≤ 1 := by
  rw [lambda_handler_normal_eq noFaults env inv hmode rfl hne] at hok ⊢
  exact normalFSM_noFaults_spec env inv.hourly inv.daily inv.stored hok

/-- C1 witness: the amended theorem applied to a first run over a freezing
forecast; the persisted mode is absent, so a notification goes out. -/
theorem C1_notification_iff_transition_witness :
    ((lambda_handler noFaults demoEnv
        ⟨.dictMode "NORMAL", [⟨0, some 30⟩], [], none, 0⟩).emails ≠ [] ↔
      (Invocation.mk (.dictMode "NORMAL") [⟨0, some 30⟩] [] none 0).stored ≠
        some (currentStateOf demoEnv [⟨0, some 30⟩] []))
    ∧ (lambda_handler noFaults demoEnv
        ⟨.dictMode "NORMAL", [⟨0, some 30⟩], [], none, 0⟩).emails.length ≤ 1
    ∧ (lambda_handler noFaults demoEnv
        ⟨.dictMode "NORMAL", [⟨0, some 30⟩], [], none, 0⟩).sms.length ≤ 1 :=
  C1_notification_iff_transition demoEnv
    ⟨.dictMode "NORMAL", [⟨0, some 30⟩], [], none, 0⟩ rfl (by decide) (by decide)

/-- C5: a NORMAL invocation whose classified state equals the persisted state
is a no-op: the exact outcome is the unchanged-state 200 response with no
e-mail, no SMS and the state record left as it was, so repetition with the
same forecast and state is idempotent. -/
theorem C5_matching_state_noop (env : Env) (inv : Invocation)
    (hmode : modeOf inv.event = "NORMAL") (hne : inv.hourly ≠ [])
    (hmatch : inv.stored = some (currentStateOf env inv.hourly inv.daily)) :
    lambda_handler noFaults env inv =
      ⟨.ok ("State unchanged (" ++ currentStateOf env inv.hourly inv.daily ++ "); no alert."),
        inv.stored, [], []⟩ := by
  rw [lambda_handler_normal_eq noFaults env inv hmode rfl hne, hmatch]
  simp [normalFSM]

/-- C5 witness: a warm forecast with WARM already persisted; note the daily
window passes the warm-clear check, so the classification is WARM. -/
theorem C5_matching_state_noop_witness :
    lambda_handler noFaults demoEnv
      ⟨.dictMode "NORMAL", [⟨0, some 40⟩], [⟨0, some 36, some 50⟩, ⟨1, some 37, some 51⟩],
        some "WARM", 0⟩ =
      ⟨.ok "State unchanged (WARM); no alert.", some "WARM", [], []⟩ := by
  have h := C5_matching_state_noop demoEnv
    ⟨.dictMode "NORMAL", [⟨0, some 40⟩], [⟨0, some 36, some 50⟩, ⟨1, some 37, some 51⟩],
      some "WARM", 0⟩ rfl (by decide) (by decide)
  simpa using h

/-- The TEST_COLD branch never changes the state value, on any input and
under any fault pattern. -/
theorem testColdBranch_stored (faults : Faults) (env : Env) (inv : Invocation) :
    (testColdBranch faults env inv).stored = inv.stored := by
  unfold testColdBranch
  split
  · split
    · rfl
    · split <;> rfl
  · split
    · rfl
    · split
      · rfl
      · split <;> rfl

/-- C6: the four recognized diagnostic modes never write the persisted state
record, for every forecast, every prior state and every fault pattern, even
though they may read the forecast and state and compute a classification. -/
theorem C6_diagnostic_modes_read_only (faults : Faults) (env : Env) (inv : Invocation)
    (h : modeOf inv.event = "TEST" ∨ modeOf inv.event = "TEST_SMS_ONLY" ∨
      modeOf inv.event = "TEST_COLD" ∨ modeOf inv.event = "TEST_WARM") :
    (lambda_handler faults env inv).stored = inv.stored := by
  rcases h with h | h | h | h <;>
    cases hh : inv.hourly.isEmpty <;>
      cases hd : statusEmailCrashes inv.daily <;>
        cases hg : faults.getStateFail <;>
          cases hs : faults.sesFail <;>
            cases hsn : faults.snsFail <;>
              cases hc : env.snsConfigured <;>
                simp [lambda_handler, h, hh, hd, hg, hs, hsn, hc, testColdBranch_stored]

/-- C6 witness: a status/test invocation over a freezing forecast with WARM
persisted leaves the WARM record in place. -/
theorem C6_diagnostic_modes_read_only_witness :
    (lambda_handler noFaults demoEnv
      ⟨.dictMode "TEST", [⟨0, some 30⟩], [], some "WARM", 0⟩).stored = some "WARM" :=
  C6_diagnostic_modes_read_only noFaults demoEnv
    ⟨.dictMode "TEST", [⟨0, some 30⟩], [], some "WARM", 0⟩ (Or.inl rfl)

/-- Notification dispatch raising after the state write. -/
def sesFault : Faults := ⟨false, false, true, false⟩

/-- The state-table write raising. -/
def putFault : Faults := ⟨false, true, false, false⟩

/-- A freeze alert whose SES call raises sends nothing and fails. -/
theorem freezeAlert_sesFail (env : Env) (hours : List HourlyPoint) (m : Rat)
    (s e : Int) (st : Option String) (b : String) :
    freezeAlert sesFault env hours m s e st b = ⟨.failure, st, [], []⟩ := rfl

/-- A warm alert whose SES call raises sends nothing and fails. -/
theorem warmAlert_sesFail (env : Env) (st : Option String) (b : String) :
    warmAlert sesFault env st b = ⟨.failure, st, [], []⟩ := rfl

/-- The COLD notification block with a raising SES call sends nothing, fails,
and leaves the state value it was handed. -/
theorem coldAlert_sesFail (env : Env) (hourly fh : List HourlyPoint)
    (st : Option String) (b : String) :
    coldAlert sesFault env hourly fh st b = ⟨.failure, st, [], []⟩ := by
  cases fh with
  | nil =>
    cases hourly with
    | nil => rfl
    | cons h0 rest =>
      cases htemp : h0.temp with
      | none => simp [coldAlert, htemp]
      | some t => simp [coldAlert, htemp, freezeAlert_sesFail]
  | cons h hs =>
    cases hmin : minTempOf (h :: hs) with
    | none => simp [coldAlert, hmin]
    | some m => simp [coldAlert, hmin, freezeAlert_sesFail]

/-- On a state change with SES raising, the FSM block still commits the new
state before failing, and no e-mail goes out. -/
theorem normalFSM_sesFail (env : Env) (hourly : List HourlyPoint)
    (daily : List DailyPoint) (stored : Option String)
    (htrans : stored ≠ some (currentStateOf env hourly daily)) :
    normalFSM sesFault env hourly daily stored =
      ⟨.failure, some (currentStateOf env hourly daily), [], []⟩ := by
  cases stored with
  | none =>
    by_cases hcold : currentStateOf env hourly daily = "COLD"
    · simp [normalFSM, hcold, coldAlert_sesFail,
        show sesFault.putStateFail = false from rfl]
    · simp [normalFSM, hcold, warmAlert_sesFail,
        show sesFault.putStateFail = false from rfl]
  | some last =>
    have hsame : ¬(currentStateOf env hourly daily = last) :=
      fun hc => htrans (by rw [hc])
    by_cases hcold : currentStateOf env hourly daily = "COLD"
    · have hsame2 : ¬("COLD" = last) := by rw [hcold] at hsame; exact hsame
      simp [normalFSM, hcold, hsame, hsame2, coldAlert_sesFail,
        show sesFault.putStateFail = false from rfl]
    · simp [normalFSM, hcold, hsame, warmAlert_sesFail,
        show sesFault.putStateFail = false from rfl]

/-- On a state change with the state-table write raising, the FSM block fails
before any effect: nothing is written and nothing is sent. -/
theorem normalFSM_putFail (env : Env) (hourly : List HourlyPoint)
    (daily : List DailyPoint) (stored : Option String)
    (htrans : stored ≠ some (currentStateOf env hourly daily)) :
    normalFSM putFault env hourly daily stored = ⟨.failure, stored, [], []⟩ := by
  cases stored with
  | none => simp [normalFSM, putFault]
  | some last =>
    have hsame : ¬(currentStateOf env hourly daily = last) :=
      fun hc => htrans (by rw [hc])
    simp [normalFSM, putFault, hsame]

/-- C9: in a NORMAL state-changing invocation, a notification-dispatch
failure after the state write does not roll the write back: the persisted
mode is the newly classified state and the invocation reports a failure;
whereas a failing state write surfaces as a failed invocation with the old
record intact and nothing sent. -/
theorem C9_write_failure_ordering (env : Env) (inv : Invocation)
    (hmode : modeOf inv.event = "NORMAL") (hne : inv.hourly ≠ [])
    (htrans : inv.stored ≠ some (currentStateOf env inv.hourly inv.daily)) :
    lambda_handler sesFault env inv =
      ⟨.failure, some (currentStateOf env inv.hourly inv.daily), [], []⟩
    ∧ lambda_handler putFault env inv = ⟨.failure, inv.stored, [], []⟩ := by
  rw [lambda_handler_normal_eq sesFault env inv hmode rfl hne,
    lambda_handler_normal_eq putFault env inv hmode rfl hne]
  exact ⟨normalFSM_sesFail env inv.hourly inv.daily inv.stored htrans,
    normalFSM_putFail env inv.hourly inv.daily inv.stored htrans⟩

/-- C9 witness: a WARM-to-COLD transition; with SES raising the record still
moves to COLD and the run fails, with the write raising the record stays WARM. -/
theorem C9_write_failure_ordering_witness :
    lambda_handler sesFault demoEnv
      ⟨.dictMode "NORMAL", [⟨0, some 30⟩], [], some "WARM", 0⟩ =
      ⟨.failure, some (currentStateOf demoEnv [⟨0, some 30⟩] []), [], []⟩
    ∧ lambda_handler putFault demoEnv
      ⟨.dictMode "NORMAL", [⟨0, some 30⟩], [], some "WARM", 0⟩ =
      ⟨.failure, some "WARM", [], []⟩ :=
  C9_write_failure_ordering demoEnv
    ⟨.dictMode "NORMAL", [⟨0, some 30⟩], [], some "WARM", 0⟩ rfl (by decide) (by decide)

/-- C7: evaluation at the failing input. A NORMAL first run whose single
hourly entry has no temperature classifies as COLD with an empty freeze-hour
list, so the synthetic fallback is reached; instead of emitting a freeze
notification built from that entry, the handler writes COLD and then crashes
on the missing temperature (`hourly[0]["temp"]` / formatting `None`),
returning a 500 with no notification — against the rule of the spec that missing
data resolves to COLD without error. -/
theorem C7_synthetic_fallback_crash :
    currentStateOf demoEnv [⟨100, none⟩] [] = "COLD"
    ∧ find_freeze_hours [⟨100, none⟩] demoEnv.hours_ahead demoEnv.threshold_f = []
    ∧ lambda_handler noFaults demoEnv ⟨.dictMode "NORMAL", [⟨100, none⟩], [], none, 0⟩ =
        ⟨.failure, some "COLD", [], []⟩ := by
  decide

/-- C8 counterexample: the simulated-cold diagnostic mode with an empty
hourly sequence returns the bare no-data result and emits no notification of
any kind, refuting the claim that every diagnostic mode still produces a
status notification stating that no data is available. -/
theorem C8_counterexample :
    lambda_handler noFaults demoEnv
      ⟨.dictMode "TEST_COLD", [], [⟨0, some 40, some 50⟩], some "WARM", 0⟩ =
      ⟨.ok "No hourly data.", some "WARM", [], []⟩ := by
  decide

/-- C8 (amended): every mode tolerates an empty hourly sequence without a
state write; NORMAL and every mode other than TEST and TEST_SMS_ONLY return
the bare no-data 200 result with no notification, and TEST_SMS_ONLY sends
only its generic test SMS. The TEST mode produces the no-data status e-mail
provided each of the first ten daily entries carries both its minimum and
maximum temperature; a daily entry missing one of them crashes the status
e-mail formatting and the invocation fails with no notification. -/
theorem C8_empty_hourly_tolerated (env : Env) (inv : Invocation)
    (he : inv.hourly = []) :
    (lambda_handler noFaults env inv).stored = inv.stored
    ∧ (modeOf inv.event = "TEST" → statusEmailCrashes inv.daily = false →
        (lambda_handler noFaults env inv).result ≠ .failure
        ∧ (lambda_handler noFaults env inv).emails =
            [Email.status inv.stored "UNKNOWN (no hourly data)"])
    ∧ (modeOf inv.event = "TEST" → statusEmailCrashes inv.daily = true →
        lambda_handler noFaults env inv = ⟨.failure, inv.stored, [], []⟩)
    ∧ (modeOf inv.event = "TEST_SMS_ONLY" →
        (lambda_handler noFaults env inv).emails = []
        ∧ (lambda_handler noFaults env inv).result =
            .ok "TEST_SMS_ONLY: test SMS sent (no hourly data).")
    ∧ (modeOf inv.event ≠ "TEST" → modeOf inv.event ≠ "TEST_SMS_ONLY" →
        lambda_handler noFaults env inv = ⟨.ok "No hourly data.", inv.stored, [], []⟩) := by
  have hh : inv.hourly.isEmpty = true := by simp [he]
  by_cases hT : modeOf inv.event = "TEST"
  · cases hd : statusEmailCrashes inv.daily <;>
      cases hc : env.snsConfigured <;>
        simp [lambda_handler, hh, hT, hd, hc, noFaults]
  · by_cases hS : modeOf inv.event = "TEST_SMS_ONLY"
    · cases hc : env.snsConfigured <;> simp [lambda_handler, hh, hT, hS, hc, noFaults]
    · simp [lambda_handler, hh, hT, hS, noFaults]

/-- C8 witness: the end-to-end scenario of the spec (a NORMAL run with WARM
persisted and no hourly data gives the no-data result, nothing sent, no
write), plus the TEST crash case: one daily entry with no min/max makes the
status invocation fail with nothing sent and nothing written. -/
theorem C8_empty_hourly_tolerated_witness :
    lambda_handler noFaults demoEnv ⟨.dictMode "NORMAL", [], [], some "WARM", 0⟩ =
      ⟨.ok "No hourly data.", some "WARM", [], []⟩
    ∧ lambda_handler noFaults demoEnv
        ⟨.dictMode "TEST", [], [⟨0, none, none⟩], some "WARM", 0⟩ =
      ⟨.failure, some "WARM", [], []⟩ := by
  constructor
  · exact (C8_empty_hourly_tolerated demoEnv
      ⟨.dictMode "NORMAL", [], [], some "WARM", 0⟩ rfl).2.2.2.2 (by decide) (by decide)
  · exact (C8_empty_hourly_tolerated demoEnv
      ⟨.dictMode "TEST", [], [⟨0, none, none⟩], some "WARM", 0⟩ rfl).2.2.1 rfl (by decide)

/-- C10: an event that is not a dict, has no mode field, or carries any mode
string other than the four recognized diagnostic values — including the
own names of the spec, STATUS and SIMULATED-COLD — is processed exactly like a
NORMAL invocation; concretely, a "STATUS" invocation over a freezing
forecast with no persisted record writes COLD and sends a real freeze alert. -/
theorem C10_unrecognized_mode_runs_normal (faults : Faults) (env : Env)
    (inv : Invocation)
    (h1 : modeOf inv.event ≠ "TEST") (h2 : modeOf inv.event ≠ "TEST_SMS_ONLY")
    (h3 : modeOf inv.event ≠ "TEST_COLD") (h4 : modeOf inv.event ≠ "TEST_WARM") :
    lambda_handler faults env inv =
      lambda_handler faults env ⟨.dictMode "NORMAL", inv.hourly, inv.daily, inv.stored, inv.now⟩
    ∧ (lambda_handler noFaults demoEnv
        ⟨.dictMode "STATUS", [⟨0, some 30⟩], [], none, 0⟩).stored = some "COLD"
    ∧ (lambda_handler noFaults demoEnv
        ⟨.dictMode "STATUS", [⟨0, some 30⟩], [], none, 0⟩).emails =
        [Email.freeze [⟨0, some 30⟩] 30 12 32] := by
  refine ⟨?_, by decide, by decide⟩
  have hr : modeOf (WeatherEvent.dictMode "NORMAL") = "NORMAL" := rfl
  simp [lambda_handler, h1, h2, h3, h4, hr]

/-- C10 witness: an invocation using the mode name SIMULATED-COLD of the spec is
handled identically to a NORMAL invocation on the same inputs. -/
theorem C10_unrecognized_mode_runs_normal_witness :
    lambda_handler noFaults demoEnv
      ⟨.dictMode "SIMULATED-COLD", [⟨0, some 30⟩], [], none, 0⟩ =
      lambda_handler noFaults demoEnv
        ⟨.dictMode "NORMAL", [⟨0, some 30⟩], [], none, 0⟩ :=
  (C10_unrecognized_mode_runs_normal noFaults demoEnv
    ⟨.dictMode "SIMULATED-COLD", [⟨0, some 30⟩], [], none, 0⟩
    (by decide) (by decide) (by decide) (by decide)).1

end ElmdaleWeather
